import Mathlib

/-!
# Verification of the daemon boilerplate core

A shallow embedding of the `app::Daemon` signal-driven lifecycle state
machine (lib/daemon.cpp and its header), the one-shot `makeDaemon`
detach/PID-file step, and the `app::task::TaskController` periodic worker
loop (src/task-abstracting/taskController.hpp).

Callbacks (`std::function<std::optional<bool>()>`) are modelled as
`Option Outcome`: `none` means no callback registered, `some o` means a
registered callback that returns outcome `o` when invoked.  Every
operation additionally returns the list of callbacks it invoked, in
order, so that "invokes exactly one callback exactly once" is a
statement about the returned trace.
-/

namespace DaemonModel

/-- The `Daemon::State` lifecycle enum. -/
inductive State
  | Start
  | Running
  | Reload
  | Stop
  | User1
  | User2
deriving DecidableEq, Repr

/-- The result of a lifecycle callback, `std::optional<bool>`:
`some true` = succeeded, `some false` = explicit failure,
`none` = unspecified / no opinion. -/
abbrev Outcome := Option Bool

/-- Identifier of one of the five registered hooks, used in invocation
traces. -/
inductive Callback
  | start
  | reload
  | user1
  | user2
  | close
deriving DecidableEq, Repr

/-- Constant `kExitSignal = SIGINT` (Linux numeric value). -/
def kExitSignal : Int := 2

/-- Constant `kTerminateSignal = SIGTERM`. -/
def kTerminateSignal : Int := 15

/-- Constant `kReloadSignal = SIGHUP`. -/
def kReloadSignal : Int := 1

/-- Constant `kUserSignal1 = SIGUSR1`. -/
def kUserSignal1 : Int := 10

/-- Constant `kUserSignal2 = SIGUSR2`. -/
def kUserSignal2 : Int := 12

/-- The member variables of the `app::Daemon` singleton. -/
structure Daemon where
  m_State : State
  m_Pid : Int
  m_IsInitialized : Bool
  m_PidFileName : String
  m_HandlerBeforeToStart : Option Outcome
  m_HandlerReload : Option Outcome
  m_HandlerUser1 : Option Outcome
  m_HandlerUser2 : Option Outcome
  m_HandlerBeforeToExit : Option Outcome
deriving DecidableEq, Repr

/-- The freshly constructed singleton: `m_State{State::Start}`,
`m_Pid{-1}`, `m_IsInitialized{false}`, empty PID file name, no handlers. -/
def Daemon.init : Daemon where
  m_State := State.Start
  m_Pid := -1
  m_IsInitialized := false
  m_PidFileName := ""
  m_HandlerBeforeToStart := none
  m_HandlerReload := none
  m_HandlerUser1 := none
  m_HandlerUser2 := none
  m_HandlerBeforeToExit := none

/-- Method `Daemon::performReloadIfRequired`: set state to `Running`; if the
reload handler is present, invoke it once, and if it returned
`some false` (the C++ `m_HandlerReload() == false` comparison on the
optional) demote the state to `Stop`. -/
def performReloadIfRequired (d : Daemon) : Daemon × List Callback :=
  let d1 : Daemon := { d with m_State := State.Running }
  match d1.m_HandlerReload with
  | none => (d1, [])
  | some r =>
      if r = some false then ({ d1 with m_State := State.Stop }, [Callback.reload])
      else (d1, [Callback.reload])

/-- Method `Daemon::performUser1IfRequired` — same shape for the USER1 hook. -/
def performUser1IfRequired (d : Daemon) : Daemon × List Callback :=
  let d1 : Daemon := { d with m_State := State.Running }
  match d1.m_HandlerUser1 with
  | none => (d1, [])
  | some r =>
      if r = some false then ({ d1 with m_State := State.Stop }, [Callback.user1])
      else (d1, [Callback.user1])

/-- Method `Daemon::performUser2IfRequired` — same shape for the USER2 hook. -/
def performUser2IfRequired (d : Daemon) : Daemon × List Callback :=
  let d1 : Daemon := { d with m_State := State.Running }
  match d1.m_HandlerUser2 with
  | none => (d1, [])
  | some r =>
      if r = some false then ({ d1 with m_State := State.Stop }, [Callback.user2])
      else (d1, [Callback.user2])

/-- Method `Daemon::isRunning`: dispatch the pending transient state, if any,
then report whether the state is `Running`.  Returns
(returned bool, daemon after the call, callbacks invoked). -/
def isRunning (d : Daemon) : Bool × Daemon × List Callback :=
  let p : Daemon × List Callback :=
    if d.m_State = State.Reload then performReloadIfRequired d
    else if d.m_State = State.User1 then performUser1IfRequired d
    else if d.m_State = State.User2 then performUser2IfRequired d
    else (d, [])
  (decide (p.1.m_State = State.Running), p.1, p.2)

/-- Method `Daemon::startAll`: state := `Running`; invoke the start handler if
present and return its outcome, else return `nullopt`. -/
def startAll (d : Daemon) : Outcome × Daemon × List Callback :=
  let d1 : Daemon := { d with m_State := State.Running }
  match d1.m_HandlerBeforeToStart with
  | some o => (o, d1, [Callback.start])
  | none => (none, d1, [])

/-- Method `Daemon::reloadAll`: state := `Reload`; return `nullopt`. -/
def reloadAll (d : Daemon) : Outcome × Daemon × List Callback :=
  (none, { d with m_State := State.Reload }, [])

/-- Method `Daemon::closeAll`: state := `Stop`; invoke the close handler if
present and return its outcome, else return `nullopt`. -/
def closeAll (d : Daemon) : Outcome × Daemon × List Callback :=
  let d1 : Daemon := { d with m_State := State.Stop }
  match d1.m_HandlerBeforeToExit with
  | some o => (o, d1, [Callback.close])
  | none => (none, d1, [])

/-- Method `Daemon::signalHandler` (the switch on the signal number): a state
write only; unrecognized signals are ignored.  The trace component
records the callbacks invoked from the handler — the source invokes
none, in any case of the switch. -/
def signalHandler (d : Daemon) (sig : Int) : Daemon × List Callback :=
  if sig = kExitSignal then ({ d with m_State := State.Stop }, [])
  else if sig = kTerminateSignal then ({ d with m_State := State.Stop }, [])
  else if sig = kReloadSignal then ({ d with m_State := State.Reload }, [])
  else if sig = kUserSignal1 then ({ d with m_State := State.User1 }, [])
  else if sig = kUserSignal2 then ({ d with m_State := State.User2 }, [])
  else (d, [])

/-- Deliver a sequence of signals to the daemon, in order. -/
def deliverSignals (d : Daemon) (sigs : List Int) : Daemon :=
  sigs.foldl (fun a sig => (signalHandler a sig).1) d

/-- The state a recognized signal number maps to (spec §4.1 / §6 table);
`none` for an unrecognized number. -/
def signalToState (sig : Int) : Option State :=
  if sig = kExitSignal ∨ sig = kTerminateSignal then some State.Stop
  else if sig = kReloadSignal then some State.Reload
  else if sig = kUserSignal1 then some State.User1
  else if sig = kUserSignal2 then some State.User2
  else none

/-- The OS facts `makeDaemon` depends on: the current process id
(`getpid()`), whether the `daemon(0, 1)` detach call succeeds, and
whether a given file can be opened for writing. -/
structure Env where
  pid : Nat
  daemonOk : Bool
  openOk : String → Bool

/-- Method `Daemon::writePidToFile`: for a non-empty name, open the file (fail
with `false` if it cannot be opened) and write `std::to_string(getpid())`;
for an empty name do nothing.  Returns the success flag and the list of
(file, content) writes performed. -/
def writePidToFile (env : Env) (pidFileName : String) :
    Bool × List (String × String) :=
  if pidFileName ≠ "" then
    if env.openOk pidFileName = false then (false, [])
    else (true, [(pidFileName, toString env.pid)])
  else (true, [])

/-- Method `Daemon::makeDaemon`: guarded by `m_IsInitialized`.  On the first
call it sets the guard and `m_PidFileName`, performs the detach, and on
detach success writes the PID file and records `m_Pid`.  Returns
(returned optional, daemon after the call, file writes performed,
whether the detach call was performed). -/
def makeDaemon (env : Env) (d : Daemon) (pidFileName : String) :
    Outcome × Daemon × List (String × String) × Bool :=
  if d.m_IsInitialized = false then
    let d1 : Daemon :=
      { d with m_IsInitialized := true, m_PidFileName := pidFileName }
    if env.daemonOk = false then (some false, d1, [], true)
    else
      let w := writePidToFile env pidFileName
      if w.1 then
        (some true, { d1 with m_Pid := Int.ofNat env.pid }, w.2, true)
      else (some false, d1, w.2, true)
  else (some false, d, [], false)

/-!
## TaskController (src/task-abstracting/taskController.hpp)

The worker loop `runTask` is embedded as a fuel-bounded recursion over
an explicit schedule `stopAt : Nat → Bool` recording, for each
iteration, whether `token.stop_requested()` holds at that iteration's
check.  Each iteration's observable behaviour is one `TaskAction`.
-/

/-- What one iteration of the worker loop does between the call of
`serveFunction` and the `stop_requested` check: either wait on the wake
event for at most `d` units, or (the serve function returned a
non-positive duration) reset `sooner` to `zeroDuration` without
waiting. -/
inductive TaskAction
  | wait (d : Int)
  | useZero
deriving DecidableEq, Repr

/-- The `while (true)` body of `TaskController::runTask`, with `fuel`
bounding the number of iterations observed, `sooner` the current
duration and `i` the iteration index.  Returns the trace of actions and
`some k` when the loop broke at iteration `k` (`none` if the fuel ran
out first). -/
def runTaskLoop (zeroDur : Int) (stepFn : Int → Int) (stopAt : Nat → Bool) :
    Nat → Int → Nat → List TaskAction × Option Nat
  | 0, _, _ => ([], none)
  | Nat.succ fuel, sooner, i =>
    let s := stepFn sooner
    let next : Int × TaskAction :=
      if s > 0 then (s, TaskAction.wait s) else (zeroDur, TaskAction.useZero)
    if stopAt i then ([next.2], some i)
    else
      let rest := runTaskLoop zeroDur stepFn stopAt fuel next.1 (i + 1)
      (next.2 :: rest.1, rest.2)

/-- Method `TaskController::runTask`: `sooner` starts at `defDuration` and the
loop runs from iteration `0`. -/
def runTask (defDur zeroDur : Int) (stepFn : Int → Int) (stopAt : Nat → Bool)
    (fuel : Nat) : List TaskAction × Option Nat :=
  runTaskLoop zeroDur stepFn stopAt fuel defDur 0

/-- The spec's recurrence for the `remaining` value at the start of
iteration `n` of the worker loop (`remaining := initialDuration`; each
iteration `remaining := stepFn(remaining)`, and when non-positive it is
replaced by `minDuration` for the next round). -/
def specRemaining (defDur zeroDur : Int) (stepFn : Int → Int) : Nat → Int
  | 0 => defDur
  | Nat.succ n =>
    let s := stepFn (specRemaining defDur zeroDur stepFn n)
    if s > 0 then s else zeroDur

/-- The spec's action at iteration `n`: wait up to `stepFn remaining_n`
when positive, otherwise skip the wait. -/
def specAction (defDur zeroDur : Int) (stepFn : Int → Int) (n : Nat) :
    TaskAction :=
  let s := stepFn (specRemaining defDur zeroDur stepFn n)
  if s > 0 then TaskAction.wait s else TaskAction.useZero

/-!
## Stop-callback registration (claim about prompt wake-up)

`std::stop_callback` registers its callback on construction and
deregisters it on destruction.  We model the set of callbacks currently
registered on the token as a list.
-/

/-- A callback registrable on the stop token; the worker registers one
that calls `event.event_condition.notify_all()`. -/
inductive StopCB
  | notifyWakeEvent
deriving DecidableEq, Repr

/-- Method `TaskController::registerStopCallback`: the statement
`std::stop_callback{token, λ. notify_all()};` constructs an unnamed
temporary — the callback is registered by the construction and
deregistered again when the temporary is destroyed at the end of that
full expression.  Input and output: the callbacks registered on the
token before and after the statement. -/
def registerStopCallback (regs : List StopCB) : List StopCB :=
  let constructed := StopCB.notifyWakeEvent :: regs
  constructed.erase StopCB.notifyWakeEvent

/-- How long a `wait_for` of length `remaining` lasts when a stop
request arrives during the wait: the registered callbacks run at the
request, so the wait is cut short (to 0) exactly when a
`notifyWakeEvent` callback is registered; otherwise the full timeout
elapses. -/
def waitTimeOnStop (remaining : Int) (regs : List StopCB) : Int :=
  if StopCB.notifyWakeEvent ∈ regs then 0 else remaining

/-- Time `stop()` spends joining a worker that is inside a
`wait_for(lck, remaining)` when cancellation is requested: the worker
wakes after `waitTimeOnStop`, sees `stop_requested` and breaks.  The
registrations on the token are those left behind by the
`registerStopCallback(token, event)` call at worker start (the worker
starts with no other callbacks registered). -/
def stopJoinDelay (remaining : Int) : Int :=
  waitTimeOnStop remaining (registerStopCallback [])

/-!
## Statement-side helpers
-/

/-- The handler a transient state dispatches to (meaningful only on
`Reload`, `User1`, `User2`). -/
def transientHandler (d : Daemon) : State → Option Outcome
  | State.Reload => d.m_HandlerReload
  | State.User1 => d.m_HandlerUser1
  | State.User2 => d.m_HandlerUser2
  | _ => none

/-- The trace entry a transient state produces when its handler runs
(meaningful only on `Reload`, `User1`, `User2`). -/
def transientCallback : State → Callback
  | State.User1 => Callback.user1
  | State.User2 => Callback.user2
  | _ => Callback.reload

/-- The callback invocations one `isRunning` poll must produce when it
observes state `st` on a daemon with `d`'s handlers: the one associated
callback exactly once if the state is transient and its handler is
registered, nothing otherwise. -/
def expectedPollTrace (d : Daemon) : State → List Callback
  | State.Reload => if d.m_HandlerReload.isSome then [Callback.reload] else []
  | State.User1 => if d.m_HandlerUser1.isSome then [Callback.user1] else []
  | State.User2 => if d.m_HandlerUser2.isSome then [Callback.user2] else []
  | _ => []

/-!
## Helper lemmas
-/

lemma isRunning_reload (d : Daemon) (h : d.m_State = State.Reload) :
    isRunning d =
      match d.m_HandlerReload with
      | none => (true, { d with m_State := State.Running }, [])
      | some r =>
          if r = some false then
            (false, { d with m_State := State.Stop }, [Callback.reload])
          else (true, { d with m_State := State.Running }, [Callback.reload]) := by
  cases hr : d.m_HandlerReload with
  | none => simp [isRunning, performReloadIfRequired, h, hr]
  | some r =>
    by_cases hf : r = some false <;>
      simp [isRunning, performReloadIfRequired, h, hr, hf]

lemma isRunning_user1 (d : Daemon) (h : d.m_State = State.User1) :
    isRunning d =
      match d.m_HandlerUser1 with
      | none => (true, { d with m_State := State.Running }, [])
      | some r =>
          if r = some false then
            (false, { d with m_State := State.Stop }, [Callback.user1])
          else (true, { d with m_State := State.Running }, [Callback.user1]) := by
  cases hr : d.m_HandlerUser1 with
  | none => simp [isRunning, performUser1IfRequired, h, hr]
  | some r =>
    by_cases hf : r = some false <;>
      simp [isRunning, performUser1IfRequired, h, hr, hf]

lemma isRunning_user2 (d : Daemon) (h : d.m_State = State.User2) :
    isRunning d =
      match d.m_HandlerUser2 with
      | none => (true, { d with m_State := State.Running }, [])
      | some r =>
          if r = some false then
            (false, { d with m_State := State.Stop }, [Callback.user2])
          else (true, { d with m_State := State.Running }, [Callback.user2]) := by
  cases hr : d.m_HandlerUser2 with
  | none => simp [isRunning, performUser2IfRequired, h, hr]
  | some r =>
    by_cases hf : r = some false <;>
      simp [isRunning, performUser2IfRequired, h, hr, hf]

lemma isRunning_other (d : Daemon) (h1 : d.m_State ≠ State.Reload)
    (h2 : d.m_State ≠ State.User1) (h3 : d.m_State ≠ State.User2) :
    isRunning d = (decide (d.m_State = State.Running), d, []) := by
  simp [isRunning, h1, h2, h3]

lemma signalHandler_eq (d : Daemon) (sig : Int) :
    signalHandler d sig =
      ({ d with m_State := (signalToState sig).getD d.m_State }, []) := by
  simp only [signalHandler, signalToState, kExitSignal, kTerminateSignal,
    kReloadSignal, kUserSignal1, kUserSignal2]
  by_cases h1 : sig = (2 : Int) <;> by_cases h2 : sig = (15 : Int) <;>
    by_cases h3 : sig = (1 : Int) <;> by_cases h4 : sig = (10 : Int) <;>
    by_cases h5 : sig = (12 : Int) <;>
    simp [h1, h2, h3, h4, h5]

lemma signalHandler_state (a : Daemon) (s : Int) (st : State)
    (hs : signalToState s = some st) : (signalHandler a s).1.m_State = st := by
  rw [signalHandler_eq]
  simp [hs]

lemma signalHandler_handlers (a : Daemon) (sig : Int) :
    (signalHandler a sig).1.m_HandlerReload = a.m_HandlerReload ∧
    (signalHandler a sig).1.m_HandlerUser1 = a.m_HandlerUser1 ∧
    (signalHandler a sig).1.m_HandlerUser2 = a.m_HandlerUser2 := by
  rw [signalHandler_eq]
  exact ⟨rfl, rfl, rfl⟩

lemma deliverSignals_handlers (sigs : List Int) (d : Daemon) :
    (deliverSignals d sigs).m_HandlerReload = d.m_HandlerReload ∧
    (deliverSignals d sigs).m_HandlerUser1 = d.m_HandlerUser1 ∧
    (deliverSignals d sigs).m_HandlerUser2 = d.m_HandlerUser2 := by
  induction sigs generalizing d with
  | nil => exact ⟨rfl, rfl, rfl⟩
  | cons sig rest ih =>
    have hstep := signalHandler_handlers d sig
    have htail := ih (signalHandler d sig).1
    simp only [deliverSignals, List.foldl_cons] at htail ⊢
    exact ⟨htail.1.trans hstep.1, htail.2.1.trans hstep.2.1,
      htail.2.2.trans hstep.2.2⟩

lemma deliverSignals_concat (d : Daemon) (sigs : List Int) (s : Int) :
    deliverSignals d (sigs ++ [s]) =
      (signalHandler (deliverSignals d sigs) s).1 := by
  simp [deliverSignals, List.foldl_append]

lemma makeDaemon_initialized (env : Env) (d : Daemon) (path : String)
    (h : d.m_IsInitialized = true) :
    makeDaemon env d path = (some false, d, [], false) := by
  simp [makeDaemon, h]

lemma makeDaemon_sets_initialized (env : Env) (d : Daemon) (path : String) :
    ((makeDaemon env d path).2.1).m_IsInitialized = true := by
  cases hb : d.m_IsInitialized with
  | true => rw [makeDaemon_initialized env d path hb]; exact hb
  | false =>
    simp only [makeDaemon, hb, if_true]
    split_ifs <;> rfl

lemma runTaskLoop_refines (defDur zeroDur : Int) (stepFn : Int → Int)
    (stopAt : Nat → Bool) (k : Nat) (hk : stopAt k = true) :
    ∀ fuel n, n ≤ k → k < n + fuel →
      (∀ m, n ≤ m → m < k → stopAt m = false) →
      runTaskLoop zeroDur stepFn stopAt fuel
          (specRemaining defDur zeroDur stepFn n) n =
        ((List.range' n (k + 1 - n)).map (specAction defDur zeroDur stepFn),
          some k) := by
  intro fuel
  induction fuel with
  | zero => intro n hn hlt _; omega
  | succ fuel ih =>
    intro n hn hlt hno
    by_cases hsn : stopAt n = true
    · have hnk : n = k := by
        by_contra hne
        have hlt2 : n < k := lt_of_le_of_ne hn hne
        have := hno n le_rfl hlt2
        rw [this] at hsn
        exact Bool.noConfusion hsn
      subst hnk
      have h1 : n + 1 - n = 1 := by omega
      by_cases hs : stepFn (specRemaining defDur zeroDur stepFn n) > 0 <;>
        simp [runTaskLoop, hsn, h1, specAction, hs]
    · have hsn' : stopAt n = false := by
        revert hsn
        cases stopAt n <;> simp
      have hnk : n < k := by
        rcases lt_or_eq_of_le hn with h | h
        · exact h
        · rw [h, hk] at hsn'
          exact absurd hsn' (by simp)
      have hrec := ih (n + 1) (by omega) (by omega)
        (fun m hm1 hm2 => hno m (by omega) hm2)
      have hrange : k + 1 - n = (k + 1 - (n + 1)) + 1 := by omega
      have hremsucc : specRemaining defDur zeroDur stepFn (n + 1) =
          (if stepFn (specRemaining defDur zeroDur stepFn n) > 0 then
            stepFn (specRemaining defDur zeroDur stepFn n) else zeroDur) := rfl
      by_cases hs : stepFn (specRemaining defDur zeroDur stepFn n) > 0
      · rw [hremsucc, if_pos hs] at hrec
        simp only [runTaskLoop, hsn', Bool.false_eq_true, if_false, hs,
          if_true, hrec]
        rw [hrange, List.range'_succ]
        simp [specAction, hs]
      · rw [hremsucc, if_neg hs] at hrec
        simp only [runTaskLoop, hsn', Bool.false_eq_true, if_false, hs,
          if_true, hrec]
        rw [hrange, List.range'_succ]
        simp [specAction, hs]

/-!
## Claim theorems
-/

/-- Sample daemon for a concrete `isRunning` reconciliation: pending
`Reload` with a reload handler that reports explicit failure. -/
def sampleReloadFail : Daemon :=
  { Daemon.init with
    m_State := State.Reload, m_HandlerReload := some (some false) }

/-- C1: on a transient state (`Reload`, `User1` or `User2`), `isRunning`
invokes exactly the one associated callback exactly once (when
registered), leaves the state `Running` unless that callback returned
explicit failure (then `Stop`), and returns `true` iff the state equals
`Running` after this reconciliation. -/
theorem isRunning_transient_spec (d : Daemon)
    (h : d.m_State = State.Reload ∨ d.m_State = State.User1 ∨
      d.m_State = State.User2) :
    (isRunning d).2.2 =
      (if (transientHandler d d.m_State).isSome then
        [transientCallback d.m_State] else []) ∧
    (isRunning d).2.1.m_State =
      (if transientHandler d d.m_State = some (some false) then State.Stop
        else State.Running) ∧
    ((isRunning d).1 = true ↔ (isRunning d).2.1.m_State = State.Running) := by
  rcases h with h | h | h
  · rw [isRunning_reload d h, h]
    cases hr : d.m_HandlerReload with
    | none => simp [transientHandler, transientCallback, hr]
    | some r =>
      by_cases hf : r = some false <;>
        simp [transientHandler, transientCallback, hr, hf]
  · rw [isRunning_user1 d h, h]
    cases hr : d.m_HandlerUser1 with
    | none => simp [transientHandler, transientCallback, hr]
    | some r =>
      by_cases hf : r = some false <;>
        simp [transientHandler, transientCallback, hr, hf]
  · rw [isRunning_user2 d h, h]
    cases hr : d.m_HandlerUser2 with
    | none => simp [transientHandler, transientCallback, hr]
    | some r =>
      by_cases hf : r = some false <;>
        simp [transientHandler, transientCallback, hr, hf]

/-- Witness for C1: a pending `Reload` whose handler fails, evaluated
concretely. -/
theorem isRunning_transient_spec_witness :
    (sampleReloadFail.m_State = State.Reload ∨
      sampleReloadFail.m_State = State.User1 ∨
      sampleReloadFail.m_State = State.User2) ∧
    ((isRunning sampleReloadFail).2.2 =
      (if (transientHandler sampleReloadFail sampleReloadFail.m_State).isSome
        then [transientCallback sampleReloadFail.m_State] else []) ∧
    (isRunning sampleReloadFail).2.1.m_State =
      (if transientHandler sampleReloadFail sampleReloadFail.m_State =
          some (some false) then State.Stop else State.Running) ∧
    ((isRunning sampleReloadFail).1 = true ↔
      (isRunning sampleReloadFail).2.1.m_State = State.Running)) :=
  ⟨Or.inl rfl, isRunning_transient_spec sampleReloadFail (Or.inl rfl)⟩

/-- Sample daemon with only a USER1 hook registered (succeeding). -/
def sampleUser1Ok : Daemon :=
  { Daemon.init with m_HandlerUser1 := some (some true) }

/-- C2: for any burst of signal deliveries between two polls, the state
consumed by the next `isRunning` is the one written by the last
recognized signal (last write wins); the next poll produces exactly the
expected single callback invocation (never dropped), leaves the state
non-transient (`Running` or `Stop`), and a second poll with no further
signal invokes no callback (never double-processed). -/
theorem signals_lastWrite_consumed_spec (d : Daemon) (sigs : List Int)
    (s : Int) (st : State) (hs : signalToState s = some st) :
    (deliverSignals d (sigs ++ [s])).m_State = st ∧
    (isRunning (deliverSignals d (sigs ++ [s]))).2.2 =
      expectedPollTrace d st ∧
    ((isRunning (deliverSignals d (sigs ++ [s]))).2.1.m_State =
        State.Running ∨
      (isRunning (deliverSignals d (sigs ++ [s]))).2.1.m_State =
        State.Stop) ∧
    (isRunning (isRunning (deliverSignals d (sigs ++ [s]))).2.1).2.2 =
      [] := by
  have hstate : (deliverSignals d (sigs ++ [s])).m_State = st := by
    rw [deliverSignals_concat]
    exact signalHandler_state _ s st hs
  have hhandlers := deliverSignals_handlers (sigs ++ [s]) d
  set d1 := deliverSignals d (sigs ++ [s]) with hd1
  have hst : st = State.Stop ∨ st = State.Reload ∨ st = State.User1 ∨
      st = State.User2 := by
    unfold signalToState at hs
    split_ifs at hs <;> simp_all
  refine ⟨hstate, ?_⟩
  rcases hst with h | h | h | h
  · subst h
    simp [expectedPollTrace, isRunning, performReloadIfRequired,
      performUser1IfRequired, performUser2IfRequired, hstate]
  · subst h
    cases hr : d.m_HandlerReload with
    | none =>
      simp [expectedPollTrace, isRunning, performReloadIfRequired,
        performUser1IfRequired, performUser2IfRequired, hstate,
        hhandlers.1, hr]
    | some r =>
      by_cases hf : r = some false <;>
        simp [expectedPollTrace, isRunning, performReloadIfRequired,
          performUser1IfRequired, performUser2IfRequired, hstate,
          hhandlers.1, hr, hf]
  · subst h
    cases hr : d.m_HandlerUser1 with
    | none =>
      simp [expectedPollTrace, isRunning, performReloadIfRequired,
        performUser1IfRequired, performUser2IfRequired, hstate,
        hhandlers.2.1, hr]
    | some r =>
      by_cases hf : r = some false <;>
        simp [expectedPollTrace, isRunning, performReloadIfRequired,
          performUser1IfRequired, performUser2IfRequired, hstate,
          hhandlers.2.1, hr, hf]
  · subst h
    cases hr : d.m_HandlerUser2 with
    | none =>
      simp [expectedPollTrace, isRunning, performReloadIfRequired,
        performUser1IfRequired, performUser2IfRequired, hstate,
        hhandlers.2.2, hr]
    | some r =>
      by_cases hf : r = some false <;>
        simp [expectedPollTrace, isRunning, performReloadIfRequired,
          performUser1IfRequired, performUser2IfRequired, hstate,
          hhandlers.2.2, hr, hf]

/-- Witness for C2: SIGINT then SIGHUP then SIGUSR1 delivered in one
interval; the USER1 hook wins and is consumed by the next poll. -/
theorem signals_lastWrite_consumed_spec_witness :
    signalToState 10 = some State.User1 ∧
    ((deliverSignals sampleUser1Ok ([2, 1] ++ [10])).m_State =
        State.User1 ∧
    (isRunning (deliverSignals sampleUser1Ok ([2, 1] ++ [10]))).2.2 =
      expectedPollTrace sampleUser1Ok State.User1 ∧
    ((isRunning (deliverSignals sampleUser1Ok ([2, 1] ++ [10]))).2.1.m_State =
        State.Running ∨
      (isRunning (deliverSignals sampleUser1Ok ([2, 1] ++ [10]))).2.1.m_State =
        State.Stop) ∧
    (isRunning
      (isRunning (deliverSignals sampleUser1Ok ([2, 1] ++ [10]))).2.1).2.2 =
      []) :=
  ⟨by decide,
    signals_lastWrite_consumed_spec sampleUser1Ok [2, 1] 10 State.User1
      (by decide)⟩

/-- C5: `startAll` always sets the state to `Running` regardless of the
start callback's outcome, returns the callback's outcome (or
`Unspecified` when absent), and a second call again yields `Running`
with the callback invoked once per call. -/
theorem startAll_spec (d : Daemon) :
    (startAll d).2.1.m_State = State.Running ∧
    (startAll d).1 = d.m_HandlerBeforeToStart.join ∧
    (startAll d).2.2 =
      (if d.m_HandlerBeforeToStart.isSome then [Callback.start] else []) ∧
    (startAll (startAll d).2.1).2.1.m_State = State.Running ∧
    (startAll (startAll d).2.1).2.2 = (startAll d).2.2 := by
  cases h : d.m_HandlerBeforeToStart <;>
    simp [startAll, h, Option.join]

/-- C6: the signal handler is a pure state write — interrupt/terminate
map to `Stop`, hang-up to `Reload`, the user signals to `User1`/`User2`,
anything else is a no-op — and invokes no callback for any signal
number. -/
theorem signalHandler_spec (d : Daemon) (sig : Int) :
    signalHandler d sig =
      ({ d with m_State := (signalToState sig).getD d.m_State }, []) :=
  signalHandler_eq d sig

/-- C10: `reloadAll` only writes the state (to `Reload`) and returns
`Unspecified`, invoking no callback itself; the reload hook runs only
when a later `isRunning` poll observes the `Reload` state. -/
theorem reloadAll_spec (d : Daemon) :
    reloadAll d = (none, { d with m_State := State.Reload }, []) ∧
    (isRunning (reloadAll d).2.1).2.2 =
      (if d.m_HandlerReload.isSome then [Callback.reload] else []) := by
  refine ⟨rfl, ?_⟩
  cases hr : d.m_HandlerReload with
  | none => simp [reloadAll, isRunning, performReloadIfRequired, hr]
  | some r =>
    by_cases hf : r = some false <;>
      simp [reloadAll, isRunning, performReloadIfRequired, hr, hf]

/-- C3 (evaluation of the code at the failing scenario): the
`std::stop_callback` built by `registerStopCallback` is an unnamed
temporary, so the registration it adds is removed again in the same
statement — no wake-event observer survives it, and a worker sleeping
60000 units when cancellation is requested is joined only after the
full 60000 units, not promptly. -/
theorem stopCallback_not_retained (regs : List StopCB) :
    registerStopCallback regs = regs ∧ stopJoinDelay 60000 = 60000 := by
  exact ⟨List.erase_cons_head StopCB.notifyWakeEvent regs, rfl⟩

/-- C4: the worker thread executes exactly the specified loop — the
`remaining` value follows the spec recurrence, each iteration waits on
the wake event for at most the step function's positive result or
substitutes the minimum duration, and the loop breaks exactly at the
first iteration whose `stop_requested` check is true. -/
theorem runTask_spec (defDur zeroDur : Int) (stepFn : Int → Int)
    (stopAt : Nat → Bool) (fuel k : Nat) (hk : stopAt k = true)
    (hfuel : k < fuel) (hmin : ∀ m, m < k → stopAt m = false) :
    runTask defDur zeroDur stepFn stopAt fuel =
      ((List.range (k + 1)).map (specAction defDur zeroDur stepFn),
        some k) := by
  have h := runTaskLoop_refines defDur zeroDur stepFn stopAt k hk fuel 0
    (Nat.zero_le k) (by omega) (fun m _ hm => hmin m hm)
  simpa [runTask, List.range_eq_range'] using h

/-- Witness for C4: a decrementing step function with stop requested at
iteration 2 of a fuel-10 run. -/
theorem runTask_spec_witness :
    (fun n => decide (n = 2)) 2 = true ∧ 2 < 10 ∧
    (∀ m, m < 2 → (fun n => decide (n = 2)) m = false) ∧
    runTask 3 1 (fun x => x - 1) (fun n => decide (n = 2)) 10 =
      ((List.range (2 + 1)).map (specAction 3 1 (fun x => x - 1)),
        some 2) :=
  ⟨by decide, by decide, by decide,
    runTask_spec 3 1 (fun x => x - 1) (fun n => decide (n = 2)) 10 2
      (by decide) (by decide) (by decide)⟩

/-- Environment in which the detach and every file open succeed. -/
def sampleEnv : Env where
  pid := 1234
  daemonOk := true
  openOk := fun _ => true

/-- Environment in which the detach call fails. -/
def sampleEnvFail : Env where
  pid := 1234
  daemonOk := false
  openOk := fun _ => true

/-- C7: a successful first `makeDaemon` with a non-empty path performs
exactly one file write, whose content is the decimal string of the
process id and nothing else; with an empty path it writes no file and
still succeeds. -/
theorem makeDaemon_pidfile_spec (env : Env) (d : Daemon) (path : String)
    (hinit : d.m_IsInitialized = false) (hdet : env.daemonOk = true) :
    (path ≠ "" → env.openOk path = true →
      (makeDaemon env d path).1 = some true ∧
      (makeDaemon env d path).2.2.1 = [(path, toString env.pid)]) ∧
    (path = "" →
      (makeDaemon env d path).1 = some true ∧
      (makeDaemon env d path).2.2.1 = []) := by
  constructor
  · intro hne hopen
    simp [makeDaemon, writePidToFile, hinit, hdet, hne, hopen]
  · intro he
    simp [makeDaemon, writePidToFile, hinit, hdet, he]

/-- Witness for C7: the fresh daemon, a succeeding environment, path
"test.pid". -/
theorem makeDaemon_pidfile_spec_witness :
    Daemon.init.m_IsInitialized = false ∧ sampleEnv.daemonOk = true ∧
    ((("test.pid" : String) ≠ "" → sampleEnv.openOk "test.pid" = true →
      (makeDaemon sampleEnv Daemon.init "test.pid").1 = some true ∧
      (makeDaemon sampleEnv Daemon.init "test.pid").2.2.1 =
        [("test.pid", toString sampleEnv.pid)]) ∧
    (("test.pid" : String) = "" →
      (makeDaemon sampleEnv Daemon.init "test.pid").1 = some true ∧
      (makeDaemon sampleEnv Daemon.init "test.pid").2.2.1 = [])) :=
  ⟨rfl, rfl, makeDaemon_pidfile_spec sampleEnv Daemon.init "test.pid" rfl rfl⟩

/-- C8: after any `makeDaemon` call the one-shot guard is set, and a
call on a daemon whose guard is set returns failure with no file write,
no detach and no change to the daemon, whatever the path and
environment. -/
theorem makeDaemon_second_noop (env env2 : Env) (d : Daemon)
    (path path2 : String) :
    ((makeDaemon env d path).2.1).m_IsInitialized = true ∧
    makeDaemon env2 (makeDaemon env d path).2.1 path2 =
      (some false, (makeDaemon env d path).2.1, [], false) :=
  ⟨makeDaemon_sets_initialized env d path,
    makeDaemon_initialized env2 _ path2
      (makeDaemon_sets_initialized env d path)⟩

/-- C9: a failing first `makeDaemon` (detach failure, or unopenable
non-empty PID file) returns failure with no file write, yet consumes the
one-shot guard, so every subsequent call is a failing no-op and the PID
file is never written. -/
theorem makeDaemon_firstFail_spec (env : Env) (d : Daemon) (path : String)
    (hinit : d.m_IsInitialized = false)
    (hfail : env.daemonOk = false ∨
      (path ≠ "" ∧ env.openOk path = false)) :
    (makeDaemon env d path).1 = some false ∧
    (makeDaemon env d path).2.2.1 = [] ∧
    ((makeDaemon env d path).2.1).m_IsInitialized = true ∧
    ∀ env2 path2,
      makeDaemon env2 (makeDaemon env d path).2.1 path2 =
        (some false, (makeDaemon env d path).2.1, [], false) := by
  have hinit2 := makeDaemon_sets_initialized env d path
  have key : (makeDaemon env d path).1 = some false ∧
      (makeDaemon env d path).2.2.1 = [] := by
    rcases hfail with h | ⟨hne, hopen⟩
    · simp [makeDaemon, hinit, h]
    · by_cases hd2 : env.daemonOk = false
      · simp [makeDaemon, hinit, hd2]
      · simp [makeDaemon, writePidToFile, hinit, hd2, hne, hopen]
  exact ⟨key.1, key.2, hinit2,
    fun env2 path2 => makeDaemon_initialized env2 _ path2 hinit2⟩

/-- Witness for C9: the fresh daemon in an environment whose detach call
fails. -/
theorem makeDaemon_firstFail_spec_witness :
    Daemon.init.m_IsInitialized = false ∧
    (sampleEnvFail.daemonOk = false ∨
      (("p.pid" : String) ≠ "" ∧ sampleEnvFail.openOk "p.pid" = false)) ∧
    ((makeDaemon sampleEnvFail Daemon.init "p.pid").1 = some false ∧
    (makeDaemon sampleEnvFail Daemon.init "p.pid").2.2.1 = [] ∧
    ((makeDaemon sampleEnvFail Daemon.init "p.pid").2.1).m_IsInitialized =
      true ∧
    ∀ env2 path2,
      makeDaemon env2 (makeDaemon sampleEnvFail Daemon.init "p.pid").2.1
          path2 =
        (some false, (makeDaemon sampleEnvFail Daemon.init "p.pid").2.1,
          [], false)) :=
  ⟨rfl, Or.inl rfl,
    makeDaemon_firstFail_spec sampleEnvFail Daemon.init "p.pid" rfl
      (Or.inl rfl)⟩

end DaemonModel
